import Mathlib

/-!
# Verification of the hands-off touch monitor (`src/docs/app.js`)

Shallow embedding of the core logic of the `HandsOff` class: the proximity
geometry (`isHandNearFace`), the frame evaluation (`processFrame`), the touch
state machine (`updateTouchState`), and the alarm lifecycle
(`startAlarm`/`stopAlarm`), together with the MediaPipe result callbacks and
the sound-toggle listener.

Conventions of the embedding:
* Normalized coordinates and times are rationals (`ℚ`); the JS numbers are
  IEEE doubles, but every claim here is about ordering/equality of values the
  program computes with `+`, `-`, `/2`, comparisons, so `ℚ` is faithful on the
  inputs used.
* The wall clock `Date.now() / 1000` is passed to each evaluation as an
  explicit parameter `t`.
* DOM/audio side effects are recorded as explicit state: the canvas is a list
  of draw operations, the alert overlay a boolean, the status line a string
  plus a dot flag, the duration readout an `Option ℚ` (the numeric value
  printed with one decimal), and the Web-Audio/`setInterval` resources are
  tracked by identifiers (`liveIntervals` is the set of interval timers the
  browser currently runs; `clearInterval` removes one).
* `this.startAlarm()` call sites are counted in `alarmStartCalls` so that
  "no repeated alarm-start calls" is expressible.
* Hand landmark lists are `List Landmark`; indexing `handLandmarks[idx]` is
  modelled with `getD` and a default. The source documents 21 points as a
  precondition, and every theorem below supplies well-formed hands, so the
  default is never reached in any statement.
-/

/-- One normalized hand landmark (MediaPipe point); the code reads `.x`, `.y`. -/
structure Landmark where
  x : ℚ
  y : ℚ
  deriving DecidableEq

/-- Normalized face bounding box in MediaPipe center/size form. -/
structure BBox where
  xCenter : ℚ
  yCenter : ℚ
  width : ℚ
  height : ℚ
  deriving DecidableEq

/-- One face detection; the code reads `detection.boundingBox`. -/
structure Detection where
  boundingBox : BBox
  deriving DecidableEq

/-- A face-detector result: `results.detections` (may be absent). -/
structure FaceResults where
  detections : Option (List Detection)
  deriving DecidableEq

/-- A hand-detector result: `results.multiHandLandmarks` (may be absent). -/
structure HandResults where
  multiHandLandmarks : Option (List (List Landmark))
  deriving DecidableEq

/-- The expanded axis-aligned rectangle built in `isHandNearFace`. -/
structure ExpandedBox where
  xMin : ℚ
  xMax : ℚ
  yMin : ℚ
  yMax : ℚ
  deriving DecidableEq

/-- `expandedBox` as computed at the top of `isHandNearFace`. -/
def expandedBox (faceBbox : BBox) (margin : ℚ) : ExpandedBox :=
  { xMin := faceBbox.xCenter - faceBbox.width / 2 - margin
    xMax := faceBbox.xCenter + faceBbox.width / 2 + margin
    yMin := faceBbox.yCenter - faceBbox.height / 2 - margin
    yMax := faceBbox.yCenter + faceBbox.height / 2 + margin }

/-- The inclusive rectangle membership test of the loop body of
`isHandNearFace` (`>=`/`<=` on all four sides). -/
def landmarkInBox (lm : Landmark) (b : ExpandedBox) : Bool :=
  decide (b.xMin ≤ lm.x) && decide (lm.x ≤ b.xMax) &&
  decide (b.yMin ≤ lm.y) && decide (lm.y ≤ b.yMax)

/-- `keyPoints = [0, 4, 8, 12, 16, 20]`: wrist plus the five fingertips. -/
def keyPoints : List ℕ := [0, 4, 8, 12, 16, 20]

/-- `isHandNearFace(handLandmarks, faceBbox)` with the margin
(`this.proximityThreshold`) passed explicitly: true iff some key point lies
in the margin-expanded box. -/
def isHandNearFace (handLandmarks : List Landmark) (faceBbox : BBox) (margin : ℚ) : Bool :=
  keyPoints.any fun idx =>
    landmarkInBox (handLandmarks.getD idx ⟨0, 0⟩) (expandedBox faceBbox margin)

/-- Spec-side predicate (for the boundary claim): the landmark lies exactly on
an edge of the (unexpanded) face bounding box, whose sides are
`xCenter ± width/2` and `yCenter ± height/2`. -/
def onFaceBoxEdge (lm : Landmark) (faceBbox : BBox) : Prop :=
  ((lm.x = faceBbox.xCenter - faceBbox.width / 2 ∨
    lm.x = faceBbox.xCenter + faceBbox.width / 2) ∧
   faceBbox.yCenter - faceBbox.height / 2 ≤ lm.y ∧
   lm.y ≤ faceBbox.yCenter + faceBbox.height / 2) ∨
  ((lm.y = faceBbox.yCenter - faceBbox.height / 2 ∨
    lm.y = faceBbox.yCenter + faceBbox.height / 2) ∧
   faceBbox.xCenter - faceBbox.width / 2 ≤ lm.x ∧
   lm.x ≤ faceBbox.xCenter + faceBbox.width / 2)

/-- The `touchingNow` computation of `processFrame` (lines 159–189): iterate
over ALL cached face detections and, for each, over all cached hands, setting
the flag whenever `isHandNearFace` holds. -/
def computeTouchingNow (faceRes : Option FaceResults) (handRes : Option HandResults)
    (margin : ℚ) : Bool :=
  match faceRes with
  | none => false
  | some fr =>
    match fr.detections with
    | none => false
    | some dets =>
      dets.any fun det =>
        match handRes with
        | none => false
        | some hr =>
          match hr.multiHandLandmarks with
          | none => false
          | some hands => hands.any fun lm => isHandNearFace lm det.boundingBox margin

/-- Claim-side decision (what the claim text asserts): test only against the
FIRST detected face. Used solely to compare against `computeTouchingNow`. -/
def firstFaceTouching (faceRes : Option FaceResults) (handRes : Option HandResults)
    (margin : ℚ) : Bool :=
  match faceRes with
  | none => false
  | some fr =>
    match fr.detections with
    | none => false
    | some dets =>
      match dets.head? with
      | none => false
      | some det =>
        match handRes with
        | none => false
        | some hr =>
          match hr.multiHandLandmarks with
          | none => false
          | some hands => hands.any fun lm => isHandNearFace lm det.boundingBox margin

/-- One canvas drawing operation of `processFrame` (coordinates are the
normalized inputs; pixel scaling by canvas width/height is a fixed affine map
and is not re-recorded here). -/
inductive CanvasOp where
  | strokeFaceBox : BBox → CanvasOp
  | drawHand : List Landmark → CanvasOp
  deriving DecidableEq

/-- The list of draw calls `processFrame` issues after `clearRect`: for each
cached face detection, stroke its box, then (if hands are cached) draw every
hand — hands are re-drawn once per face, as in the nested source loops. -/
def renderOps (faceRes : Option FaceResults) (handRes : Option HandResults) : List CanvasOp :=
  match faceRes with
  | none => []
  | some fr =>
    match fr.detections with
    | none => []
    | some dets =>
      dets.flatMap fun det =>
        CanvasOp.strokeFaceBox det.boundingBox ::
          (match handRes with
           | none => []
           | some hr =>
             match hr.multiHandLandmarks with
             | none => []
             | some hands => hands.map CanvasOp.drawHand)

/-- The mutable fields of the `HandsOff` instance that the core logic touches,
plus the externally observable DOM/audio effects. Web-Audio nodes and interval
timers are identified by numbers drawn from the counter `nextRes`;
`liveIntervals` / `liveGains` are the resources the browser currently holds
(a `setInterval` timer stays alive until some `clearInterval` names its id). -/
structure AppState where
  /-- `this.isRunning` -/
  isRunning : Bool
  /-- `this.touchThreshold` (seconds) -/
  touchThreshold : ℚ
  /-- `this.proximityThreshold` (normalized margin) -/
  proximityThreshold : ℚ
  /-- `this.enableSound` -/
  enableSound : Bool
  /-- `this.isTouching` -/
  isTouching : Bool
  /-- `this.touchStartTime` (`null` = `none`) -/
  touchStartTime : Option ℚ
  /-- `this.alertActive` -/
  alertActive : Bool
  /-- `this.lastHandResults` -/
  lastHandResults : Option HandResults
  /-- `this.lastFaceResults` -/
  lastFaceResults : Option FaceResults
  /-- `this.alarmGain` (`null` = `none`), as a resource id -/
  alarmGain : Option ℕ
  /-- `this.alarmInterval` (`null` = `none`), as a timer id -/
  alarmInterval : Option ℕ
  /-- `this.alarmOscillator` (`null` = `none`) -/
  alarmOscillator : Option ℕ
  /-- interval timers currently installed in the browser -/
  liveIntervals : List ℕ
  /-- gain nodes currently connected to the audio destination -/
  liveGains : List ℕ
  /-- fresh resource id supply -/
  nextRes : ℕ
  /-- instrumentation: number of times `this.startAlarm()` has been invoked -/
  alarmStartCalls : ℕ
  /-- whether `#alert` has class `active` -/
  overlayActive : Bool
  /-- `.status-text` content -/
  statusText : String
  /-- whether `.status-dot` has class `touching` -/
  statusDotTouching : Bool
  /-- numeric value shown in `#duration` (`none` = never written) -/
  durationDisplay : Option ℚ
  /-- draw calls currently on the canvas -/
  canvas : List CanvasOp
  deriving DecidableEq

/-- `startAlarm()` (lines 307–343). Guard: return if sound is disabled or
`this.alarmOscillator` is set. Otherwise create and connect a gain node,
play the first beep (transient oscillator nodes, not tracked), and install a
repeating `setInterval` timer, storing it in `this.alarmInterval`.
Note `this.alarmOscillator` is never assigned a non-null value anywhere in the
source, so the second disjunct of the guard never fires. -/
def startAlarm (s : AppState) : AppState :=
  if !s.enableSound || s.alarmOscillator.isSome then s
  else
    { s with
      alarmGain := some s.nextRes
      liveGains := s.nextRes :: s.liveGains
      alarmInterval := some (s.nextRes + 1)
      liveIntervals := (s.nextRes + 1) :: s.liveIntervals
      nextRes := s.nextRes + 2 }

/-- `stopAlarm()` (lines 345–355): if `this.alarmInterval` is set, clear that
interval and null the field; if `this.alarmGain` is set, disconnect it and
null the field; finally null `alarmOscillator`. (The two guarded blocks of
the source touch disjoint fields, so they are written here as one record
update with the guards inside the field values.) -/
def stopAlarm (s : AppState) : AppState :=
  { s with
    liveIntervals :=
      match s.alarmInterval with
      | some i => s.liveIntervals.erase i
      | none => s.liveIntervals
    alarmInterval := none
    liveGains :=
      match s.alarmGain with
      | some g => s.liveGains.erase g
      | none => s.liveGains
    alarmGain := none
    alarmOscillator := none }

/-- `updateStatus(text, isTouching)` (lines 298–305). -/
def updateStatus (s : AppState) (text : String) (isTouching : Bool) : AppState :=
  { s with statusText := text, statusDotTouching := isTouching }

/-- `updateTouchState(touchingNow)` (lines 257–296), with the clock reading
`Date.now() / 1000` passed as `t`. In JS, `currentTime - null` evaluates as
`currentTime - 0`, hence the `getD 0`. -/
def updateTouchState (s : AppState) (touchingNow : Bool) (t : ℚ) : AppState :=
  if touchingNow then
    if !s.isTouching then
      updateStatus
        { s with touchStartTime := some t, isTouching := true, alertActive := false }
        "TOUCHING" true
    else
      let duration := t - s.touchStartTime.getD 0
      let s1 :=
        if s.touchThreshold ≤ duration && !s.alertActive then
          startAlarm { s with alertActive := true, alarmStartCalls := s.alarmStartCalls + 1 }
        else s
      if s1.alertActive then
        { s1 with overlayActive := true, durationDisplay := some duration }
      else s1
  else
    let s1 := if s.isTouching then stopAlarm s else s
    updateStatus
      { s1 with isTouching := false, touchStartTime := none, alertActive := false,
                overlayActive := false }
      "Clear" false

/-- The inputs `processFrame` feeds to the geometry test: the cached face
result, the cached hand result, and `this.proximityThreshold`. -/
def touchingDecision (s : AppState) : Bool :=
  computeTouchingNow s.lastFaceResults s.lastHandResults s.proximityThreshold

/-- `processFrame()` (lines 153–193): bail out when not running; otherwise
clear and redraw the canvas, compute `touchingNow` from the cached results and
the margin, and update the touch state. -/
def processFrame (s : AppState) (t : ℚ) : AppState :=
  if !s.isRunning then s
  else
    let s1 := { s with canvas := renderOps s.lastFaceResults s.lastHandResults }
    updateTouchState s1 (touchingDecision s1) t

/-- The `hands.onResults` callback (lines 119–122): cache the hand result,
then run `processFrame` at clock time `t`. -/
def handleHandResults (s : AppState) (r : HandResults) (t : ℚ) : AppState :=
  processFrame { s with lastHandResults := some r } t

/-- The `faceDetection.onResults` callback (lines 136–138): cache the face
result only. -/
def handleFaceResults (s : AppState) (r : FaceResults) : AppState :=
  { s with lastFaceResults := some r }

/-- The `soundToggle` change listener (lines 52–57): record the checkbox and,
when unchecked, stop the alarm. -/
def setSoundEnabled (s : AppState) (checked : Bool) : AppState :=
  let s1 := { s with enableSound := checked }
  if !checked then stopAlarm s1 else s1

/-- The field values the `HandsOff` constructor installs (lines 22–44), with
`isRunning := true` as after a successful `start()` (line 93). The initial
status DOM text is whatever the page markup holds; it is immaterial to every
claim and set to the empty string. -/
def runningInit : AppState :=
  { isRunning := true
    touchThreshold := 1
    proximityThreshold := 2 / 25
    enableSound := true
    isTouching := false
    touchStartTime := none
    alertActive := false
    lastHandResults := none
    lastFaceResults := none
    alarmGain := none
    alarmInterval := none
    alarmOscillator := none
    liveIntervals := []
    liveGains := []
    nextRes := 0
    alarmStartCalls := 0
    overlayActive := false
    statusText := ""
    statusDotTouching := false
    durationDisplay := none
    canvas := [] }

/-- A run of consecutive evaluations that all see `touchingNow = true`, at the
given clock readings. -/
def runTouch (s : AppState) (ts : List ℚ) : AppState :=
  ts.foldl (fun s t => updateTouchState s true t) s

/-! ### Concrete inputs used as counterexamples and witnesses -/

/-- A hand whose 21 landmarks all sit at `(0.8, 0.8)`. -/
def exHand : List Landmark := List.replicate 21 ⟨4 / 5, 4 / 5⟩

/-- A face detection around `(0.2, 0.2)`, box `0.1 × 0.1`. -/
def exFace1 : Detection := ⟨⟨1 / 5, 1 / 5, 1 / 10, 1 / 10⟩⟩

/-- A face detection around `(0.8, 0.8)`, box `0.1 × 0.1`. -/
def exFace2 : Detection := ⟨⟨4 / 5, 4 / 5, 1 / 10, 1 / 10⟩⟩

/-- A face result containing two detections, `exFace1` first. -/
def exFaceResults : FaceResults := ⟨some [exFace1, exFace2]⟩

/-- A hand result containing the single hand `exHand`. -/
def exHandResults : HandResults := ⟨some [exHand]⟩

/-- A freshly started instance with both detector results cached. -/
def exStateFresh : AppState :=
  { runningInit with
    lastFaceResults := some exFaceResults
    lastHandResults := some exHandResults }

/-- The same caches, but mid-session: touching since clock 5, alert armed. -/
def exStateMid : AppState :=
  { runningInit with
    lastFaceResults := some exFaceResults
    lastHandResults := some exHandResults
    isTouching := true
    alertActive := true
    touchStartTime := some 5 }

/-- An ALERTING state with the alarm running: alert armed, overlay on, one
live interval timer (id 1) and one connected gain node (id 0). -/
def exStateAlerting : AppState :=
  { runningInit with
    isTouching := true
    touchStartTime := some 0
    alertActive := true
    overlayActive := true
    alarmGain := some 0
    alarmInterval := some 1
    liveGains := [0]
    liveIntervals := [1]
    nextRes := 2
    alarmStartCalls := 1 }

/-- A stopped instance (`isRunning = false`), as before `start()`. -/
def exStateStopped : AppState :=
  { runningInit with isRunning := false }

/-- A 21-point hand whose every landmark sits at `(0.4, 0.5)` — exactly on the
left edge of the box centered at `(0.5, 0.5)` with width and height `0.2`. -/
def exEdgeHand : List Landmark := List.replicate 21 ⟨2 / 5, 1 / 2⟩

/-! ### Small helper lemmas -/

theorem getD_replicate_of_lt {α : Type} (a d : α) {n i : ℕ} (h : i < n) :
    (List.replicate n a).getD i d = a := by
  induction n generalizing i with
  | zero => omega
  | succ m ih =>
    cases i with
    | zero => rfl
    | succ j => simpa [List.replicate] using ih (by omega)

/-! ### Field-preservation lemmas for the alarm lifecycle -/

theorem startAlarm_isTouching (s : AppState) : (startAlarm s).isTouching = s.isTouching := by
  unfold startAlarm; split <;> rfl

theorem startAlarm_touchStartTime (s : AppState) :
    (startAlarm s).touchStartTime = s.touchStartTime := by
  unfold startAlarm; split <;> rfl

theorem startAlarm_alertActive (s : AppState) :
    (startAlarm s).alertActive = s.alertActive := by
  unfold startAlarm; split <;> rfl

theorem startAlarm_alarmStartCalls (s : AppState) :
    (startAlarm s).alarmStartCalls = s.alarmStartCalls := by
  unfold startAlarm; split <;> rfl

theorem startAlarm_touchThreshold (s : AppState) :
    (startAlarm s).touchThreshold = s.touchThreshold := by
  unfold startAlarm; split <;> rfl

/-! ### Step and run lemmas for the touch state machine -/

/-- One evaluation with `touchingNow = true` while already touching: the
session fields persist, the alert flag becomes armed as soon as the threshold
is reached, and `startAlarm` is invoked exactly on the arming transition. -/
theorem updateTouchState_still_touching (s : AppState) (t t0 : ℚ)
    (hT : s.isTouching = true) (hS : s.touchStartTime = some t0) :
    (updateTouchState s true t).isTouching = true ∧
    (updateTouchState s true t).touchStartTime = some t0 ∧
    (updateTouchState s true t).touchThreshold = s.touchThreshold ∧
    (updateTouchState s true t).alertActive =
      (s.alertActive || decide (s.touchThreshold ≤ t - t0)) ∧
    (updateTouchState s true t).alarmStartCalls =
      s.alarmStartCalls +
        (if s.alertActive = false ∧ s.touchThreshold ≤ t - t0 then 1 else 0) := by
  by_cases hA : s.alertActive = true <;>
    by_cases hd : s.touchThreshold ≤ t - t0 <;>
      simp [updateTouchState, hT, hS, hA, hd, startAlarm_isTouching,
        startAlarm_touchStartTime, startAlarm_alertActive, startAlarm_alarmStartCalls,
        startAlarm_touchThreshold]

/-- Running further touching evaluations from an in-session state: the alert
flag fires iff some evaluation time reaches `startTime + threshold`, and
`startAlarm` is invoked at most once — exactly once if the flag was not yet
armed and some evaluation crosses the threshold. -/
theorem runTouch_still_touching (us : List ℚ) (s : AppState) (t0 : ℚ)
    (hT : s.isTouching = true) (hS : s.touchStartTime = some t0) :
    (runTouch s us).isTouching = true ∧
    (runTouch s us).touchStartTime = some t0 ∧
    (runTouch s us).touchThreshold = s.touchThreshold ∧
    (runTouch s us).alertActive =
      (s.alertActive || us.any fun u => decide (s.touchThreshold ≤ u - t0)) ∧
    (runTouch s us).alarmStartCalls =
      s.alarmStartCalls +
        (if s.alertActive = true then 0
         else if (us.any fun u => decide (s.touchThreshold ≤ u - t0)) = true then 1
         else 0) := by
  induction us generalizing s with
  | nil => simp [runTouch, hT, hS]
  | cons u us ih =>
    have hrun : runTouch s (u :: us) = runTouch (updateTouchState s true u) us := rfl
    obtain ⟨h1, h2, h3, h4, h5⟩ := updateTouchState_still_touching s u t0 hT hS
    obtain ⟨g1, g2, g3, g4, g5⟩ := ih (updateTouchState s true u) h1 h2
    rw [hrun]
    refine ⟨g1, g2, by rw [g3, h3], ?_, ?_⟩
    · rw [g4, h4, h3, List.any_cons, Bool.or_assoc]
    · rw [g5, h5, h4, h3, List.any_cons]
      by_cases hA : s.alertActive = true <;> by_cases hd : s.touchThreshold ≤ u - t0 <;>
        simp [hA, hd]

/-- The first evaluation of a touch session (`touchingNow = true` while not
yet touching): record the start time, raise the touching flag, clear the
alert flag, report "TOUCHING". -/
theorem updateTouchState_start (s : AppState) (t : ℚ) (hT : s.isTouching = false) :
    updateTouchState s true t =
      updateStatus
        { s with touchStartTime := some t, isTouching := true, alertActive := false }
        "TOUCHING" true := by
  simp [updateTouchState, hT]

/-! ### The claims -/

/-- C1 counterexample: with two cached face detections and one hand sitting on
the second face only, the touching computation of `processFrame` returns `true`
although no key point of any hand is inside the margin-expanded box of the
first face — so the claimed first-face-only evaluation is refuted. -/
theorem c1_counterexample :
    computeTouchingNow (some exFaceResults) (some exHandResults) (2 / 25) = true ∧
    firstFaceTouching (some exFaceResults) (some exHandResults) (2 / 25) = false ∧
    isHandNearFace exHand exFace1.boundingBox (2 / 25) = false := by
  refine ⟨?_, ?_, ?_⟩ <;>
    · simp only [computeTouchingNow, firstFaceTouching, exFaceResults, exHandResults,
        exFace1, exFace2, exHand, isHandNearFace, keyPoints, landmarkInBox, expandedBox,
        List.head?, List.any_cons, List.any_nil,
        getD_replicate_of_lt _ _ (by norm_num : (0:ℕ) < 21),
        getD_replicate_of_lt _ _ (by norm_num : (4:ℕ) < 21),
        getD_replicate_of_lt _ _ (by norm_num : (8:ℕ) < 21),
        getD_replicate_of_lt _ _ (by norm_num : (12:ℕ) < 21),
        getD_replicate_of_lt _ _ (by norm_num : (16:ℕ) < 21),
        getD_replicate_of_lt _ _ (by norm_num : (20:ℕ) < 21)]
      norm_num

/-- C1 (amended): the touching boolean is evaluated against EVERY cached face
detection — it is `true` iff some detected face and some present hand satisfy
`isHandNearFace`. -/
theorem c1_touching_any_face (dets : List Detection) (hands : List (List Landmark)) (m : ℚ) :
    computeTouchingNow (some ⟨some dets⟩) (some ⟨some hands⟩) m = true ↔
      ∃ d ∈ dets, ∃ h ∈ hands, isHandNearFace h d.boundingBox m = true := by
  simp [computeTouchingNow, List.any_eq_true]

/-- C2 (code bug): calling `startAlarm` a second time while the alarm is
already running is NOT a no-op. The guard tests `this.alarmOscillator`, which
no code path ever sets, so the second call installs a second repeating
interval timer: two timers are live, `alarmInterval` now names a new timer,
and the first timer (id 1) is still installed but no longer reachable from
`alarmInterval` — `stopAlarm` can never clear it. (`stopAlarm` while not
running, by contrast, really is a no-op.) -/
theorem c2_second_start_duplicates_timer :
    (startAlarm (startAlarm runningInit)).liveIntervals.length = 2 ∧
    (startAlarm runningInit).alarmInterval = some 1 ∧
    (startAlarm (startAlarm runningInit)).alarmInterval = some 3 ∧
    1 ∈ (startAlarm (startAlarm runningInit)).liveIntervals ∧
    stopAlarm runningInit = runningInit := by
  refine ⟨rfl, rfl, rfl, ?_, rfl⟩
  simp [startAlarm, runningInit]

/-- C3: starting a run of consecutive `touchingNow = true` evaluations from a
non-touching state at clock `t0`, with positive threshold and non-decreasing
clock, after any prefix of the later evaluations the alert flag is armed iff
some evaluation time `u` in the prefix satisfied `u - t0 ≥ threshold` (so the
machine enters ALERTING exactly at the first such evaluation and never
earlier), and `startAlarm` has been invoked exactly once if that crossing
happened and never otherwise (no re-trigger within the run). -/
theorem c3_alert_entry (s0 : AppState) (t0 : ℚ) (us : List ℚ) (n : ℕ)
    (hClear : s0.isTouching = false)
    (_hpos : 0 < s0.touchThreshold)
    (_hmono : List.Sorted (· ≤ ·) (t0 :: us)) :
    (runTouch s0 (t0 :: us.take n)).alertActive =
      ((us.take n).any fun u => decide (s0.touchThreshold ≤ u - t0)) ∧
    (runTouch s0 (t0 :: us.take n)).alarmStartCalls =
      s0.alarmStartCalls +
        (if ((us.take n).any fun u => decide (s0.touchThreshold ≤ u - t0)) = true then 1
         else 0) := by
  have hstep :
      runTouch s0 (t0 :: us.take n) = runTouch (updateTouchState s0 true t0) (us.take n) := rfl
  rw [hstep, updateTouchState_start s0 t0 hClear]
  obtain ⟨g1, g2, g3, g4, g5⟩ :=
    runTouch_still_touching (us.take n)
      (updateStatus
        { s0 with touchStartTime := some t0, isTouching := true, alertActive := false }
        "TOUCHING" true) t0 rfl rfl
  refine ⟨?_, ?_⟩
  · rw [g4]; simp [updateStatus]
  · rw [g5]; simp [updateStatus]

/-- C3 witness: threshold 1, touching at clocks 0, 0.5, 1, 1.5 — the alert is
armed (exactly at clock 1) and the alarm started exactly once. -/
theorem c3_alert_entry_witness :
    runningInit.isTouching = false ∧
    (0 : ℚ) < runningInit.touchThreshold ∧
    List.Sorted (· ≤ ·) ((0 : ℚ) :: [1 / 2, 1, 3 / 2]) ∧
    (runTouch runningInit ((0 : ℚ) :: [(1 : ℚ) / 2, 1, 3 / 2].take 3)).alertActive = true ∧
    (runTouch runningInit ((0 : ℚ) :: [(1 : ℚ) / 2, 1, 3 / 2].take 3)).alarmStartCalls = 1 := by
  have h := c3_alert_entry runningInit 0 [1 / 2, 1, 3 / 2] 3 rfl
    (by norm_num [runningInit]) (by norm_num [List.sorted_cons])
  refine ⟨rfl, by norm_num [runningInit], by norm_num [List.sorted_cons], ?_, ?_⟩
  · rw [h.1]; norm_num [runningInit]
  · rw [h.2]; norm_num [runningInit]

/-- C4: from any machine state (with the run-time invariant that the repeating
alarm timer only exists while touching), one evaluation with
`touchingNow = false` yields the CLEAR state — touching flag down, start time
cleared, alert flag cleared, overlay off, status "Clear", alarm timer gone —
and a subsequent evaluation with `touchingNow = true` at clock `tNext` starts
a fresh session whose start time is `tNext` itself, with the alert flag still
clear (no elapsed time carries over). -/
theorem c4_clear_resets_session (s : AppState) (t tNext : ℚ)
    (hInv : s.isTouching = false → s.alarmInterval = none) :
    (updateTouchState s false t).isTouching = false ∧
    (updateTouchState s false t).touchStartTime = none ∧
    (updateTouchState s false t).alertActive = false ∧
    (updateTouchState s false t).overlayActive = false ∧
    (updateTouchState s false t).statusText = "Clear" ∧
    (updateTouchState s false t).statusDotTouching = false ∧
    (updateTouchState s false t).alarmInterval = none ∧
    (updateTouchState (updateTouchState s false t) true tNext).isTouching = true ∧
    (updateTouchState (updateTouchState s false t) true tNext).touchStartTime = some tNext ∧
    (updateTouchState (updateTouchState s false t) true tNext).alertActive = false := by
  by_cases hT : s.isTouching = true
  · simp [updateTouchState, updateStatus, stopAlarm, hT]
  · have hT' : s.isTouching = false := by simpa using hT
    have hN : s.alarmInterval = none := hInv hT'
    simp [updateTouchState, updateStatus, hT', hN]

/-- C4 witness: from the concrete ALERTING state reached by touching at
clocks 10 and 11.5, a non-touching evaluation at 12 clears everything and
stops the timer, and touching again at 13 starts a session at 13. -/
theorem c4_clear_resets_session_witness :
    ((updateTouchState (updateTouchState runningInit true 10) true (23 / 2)).isTouching = false →
      (updateTouchState (updateTouchState runningInit true 10) true (23 / 2)).alarmInterval =
        none) ∧
    (updateTouchState (updateTouchState (updateTouchState runningInit true 10) true (23 / 2))
        false 12).isTouching = false ∧
    (updateTouchState (updateTouchState (updateTouchState runningInit true 10) true (23 / 2))
        false 12).touchStartTime = none ∧
    (updateTouchState (updateTouchState (updateTouchState runningInit true 10) true (23 / 2))
        false 12).alertActive = false ∧
    (updateTouchState (updateTouchState (updateTouchState runningInit true 10) true (23 / 2))
        false 12).overlayActive = false ∧
    (updateTouchState (updateTouchState (updateTouchState runningInit true 10) true (23 / 2))
        false 12).statusText = "Clear" ∧
    (updateTouchState (updateTouchState (updateTouchState runningInit true 10) true (23 / 2))
        false 12).statusDotTouching = false ∧
    (updateTouchState (updateTouchState (updateTouchState runningInit true 10) true (23 / 2))
        false 12).alarmInterval = none ∧
    (updateTouchState
        (updateTouchState
          (updateTouchState (updateTouchState runningInit true 10) true (23 / 2)) false 12)
        true 13).isTouching = true ∧
    (updateTouchState
        (updateTouchState
          (updateTouchState (updateTouchState runningInit true 10) true (23 / 2)) false 12)
        true 13).touchStartTime = some 13 ∧
    (updateTouchState
        (updateTouchState
          (updateTouchState (updateTouchState runningInit true 10) true (23 / 2)) false 12)
        true 13).alertActive = false := by
  have hInv :
      (updateTouchState (updateTouchState runningInit true 10) true (23 / 2)).isTouching =
          false →
        (updateTouchState (updateTouchState runningInit true 10) true (23 / 2)).alarmInterval =
          none := by
    intro h
    exfalso
    revert h
    norm_num [updateTouchState, updateStatus, startAlarm, runningInit]
  have h :=
    c4_clear_resets_session
      (updateTouchState (updateTouchState runningInit true 10) true (23 / 2)) 12 13 hInv
  exact ⟨hInv, h.1, h.2.1, h.2.2.1, h.2.2.2.1, h.2.2.2.2.1, h.2.2.2.2.2.1, h.2.2.2.2.2.2.1,
    h.2.2.2.2.2.2.2.1, h.2.2.2.2.2.2.2.2.1, h.2.2.2.2.2.2.2.2.2⟩

/-- C5 counterexample: touch at clock 10, alert at clock 11.5, then the clock
goes backward to 9.5 — the evaluation still runs, but the duration shown in
the `#duration` readout is the raw difference `9.5 - 10 = -0.5`: a negative
value is displayed, so the claimed clamping to ≥ 0 does not exist. -/
theorem c5_counterexample :
    (updateTouchState (updateTouchState (updateTouchState runningInit true 10) true (23 / 2))
        true (19 / 2)).durationDisplay = some (-(1 / 2 : ℚ)) ∧
    (-(1 / 2 : ℚ) < 0) := by
  constructor
  · norm_num [updateTouchState, updateStatus, startAlarm, runningInit]
  · norm_num

/-- C5 (amended): an evaluation with the clock earlier than the session start
time cannot crash (the transition function is total), and while the alert is
active the displayed duration is exactly the raw difference
`t - touchStartTime` — negative when the clock went backward; the display is
NOT clamped to ≥ 0. -/
theorem c5_raw_duration_display (s : AppState) (t : ℚ)
    (hT : s.isTouching = true) (hA : s.alertActive = true) :
    (updateTouchState s true t).durationDisplay = some (t - s.touchStartTime.getD 0) ∧
    (updateTouchState s true t).alertActive = true := by
  simp [updateTouchState, hT, hA]

/-- C5 witness: the amended statement applied to the concrete ALERTING state
reached by touching at clocks 10 and 11.5, evaluated at the backward clock
9.5. -/
theorem c5_raw_duration_display_witness :
    (updateTouchState (updateTouchState runningInit true 10) true (23 / 2)).isTouching = true ∧
    (updateTouchState (updateTouchState runningInit true 10) true (23 / 2)).alertActive = true ∧
    (updateTouchState (updateTouchState (updateTouchState runningInit true 10) true (23 / 2))
        true (19 / 2)).durationDisplay =
      some ((19 / 2 : ℚ) -
        (updateTouchState (updateTouchState runningInit true 10) true
            (23 / 2)).touchStartTime.getD 0) ∧
    (updateTouchState (updateTouchState (updateTouchState runningInit true 10) true (23 / 2))
        true (19 / 2)).alertActive = true := by
  have h1 :
      (updateTouchState (updateTouchState runningInit true 10) true (23 / 2)).isTouching =
        true := by
    norm_num [updateTouchState, updateStatus, startAlarm, runningInit]
  have h2 :
      (updateTouchState (updateTouchState runningInit true 10) true (23 / 2)).alertActive =
        true := by
    norm_num [updateTouchState, updateStatus, startAlarm, runningInit]
  have h :=
    c5_raw_duration_display
      (updateTouchState (updateTouchState runningInit true 10) true (23 / 2)) (19 / 2) h1 h2
  exact ⟨h1, h2, h.1, h.2⟩

/-- C6: the touching decision fed to the state machine is a function of the
cached face result, the cached hand result, and the proximity margin alone:
two instance states agreeing on those three fields produce the same boolean,
whatever their touching flag, start time, or alert flag. -/
theorem c6_geometry_has_no_hysteresis (s1 s2 : AppState)
    (hf : s1.lastFaceResults = s2.lastFaceResults)
    (hh : s1.lastHandResults = s2.lastHandResults)
    (hm : s1.proximityThreshold = s2.proximityThreshold) :
    touchingDecision s1 = touchingDecision s2 := by
  unfold touchingDecision
  rw [hf, hh, hm]

/-- C6 witness: a mid-session state (touching, alert armed, a start time) and
a fresh state with the same caches and margin decide identically, although
their machine fields differ. -/
theorem c6_geometry_has_no_hysteresis_witness :
    exStateFresh.isTouching ≠ exStateMid.isTouching ∧
    exStateFresh.alertActive ≠ exStateMid.alertActive ∧
    exStateFresh.touchStartTime ≠ exStateMid.touchStartTime ∧
    touchingDecision exStateFresh = touchingDecision exStateMid :=
  ⟨by simp [exStateFresh, exStateMid, runningInit],
   by simp [exStateFresh, exStateMid, runningInit],
   by simp [exStateFresh, exStateMid, runningInit],
   c6_geometry_has_no_hysteresis exStateFresh exStateMid rfl rfl rfl⟩

/-- C7: unchecking the sound toggle while the alert is armed and the alarm
runs (one live interval timer, one connected gain node) synchronously stops
the alarm — the timer is cleared, the gain node disconnected, all alarm
handles nulled — while the alert flag, the touching flag, the start time, the
overlay, the status line and the duration readout keep their values. -/
theorem c7_sound_off_stops_alarm_only (s : AppState) (i g : ℕ)
    (hAlert : s.alertActive = true)
    (hInt : s.alarmInterval = some i) (hLive : s.liveIntervals = [i])
    (hGain : s.alarmGain = some g) (hLiveG : s.liveGains = [g]) :
    (setSoundEnabled s false).enableSound = false ∧
    (setSoundEnabled s false).alarmInterval = none ∧
    (setSoundEnabled s false).liveIntervals = [] ∧
    (setSoundEnabled s false).alarmGain = none ∧
    (setSoundEnabled s false).liveGains = [] ∧
    (setSoundEnabled s false).alarmOscillator = none ∧
    (setSoundEnabled s false).alertActive = true ∧
    (setSoundEnabled s false).isTouching = s.isTouching ∧
    (setSoundEnabled s false).touchStartTime = s.touchStartTime ∧
    (setSoundEnabled s false).overlayActive = s.overlayActive ∧
    (setSoundEnabled s false).statusText = s.statusText ∧
    (setSoundEnabled s false).statusDotTouching = s.statusDotTouching ∧
    (setSoundEnabled s false).durationDisplay = s.durationDisplay := by
  simp [setSoundEnabled, stopAlarm, hAlert, hInt, hLive, hGain, hLiveG]

/-- C7 witness: the concrete ALERTING state with timer id 1 and gain id 0. -/
theorem c7_sound_off_stops_alarm_only_witness :
    exStateAlerting.alertActive = true ∧
    exStateAlerting.alarmInterval = some 1 ∧
    exStateAlerting.liveIntervals = [1] ∧
    exStateAlerting.alarmGain = some 0 ∧
    exStateAlerting.liveGains = [0] ∧
    (setSoundEnabled exStateAlerting false).enableSound = false ∧
    (setSoundEnabled exStateAlerting false).alarmInterval = none ∧
    (setSoundEnabled exStateAlerting false).liveIntervals = [] ∧
    (setSoundEnabled exStateAlerting false).alertActive = true ∧
    (setSoundEnabled exStateAlerting false).overlayActive = exStateAlerting.overlayActive ∧
    (setSoundEnabled exStateAlerting false).touchStartTime = exStateAlerting.touchStartTime := by
  have h := c7_sound_off_stops_alarm_only exStateAlerting 1 0 rfl rfl rfl rfl rfl
  exact ⟨rfl, rfl, rfl, rfl, rfl, h.1, h.2.1, h.2.2.1, h.2.2.2.2.2.2.1,
    h.2.2.2.2.2.2.2.2.2.1, h.2.2.2.2.2.2.2.2.1⟩

/-- C8: with margin 0, whenever one of the six key points (wrist 0 and
fingertips 4, 8, 12, 16, 20) of a well-formed 21-point hand lies exactly on an
edge of a (non-degenerate) face bounding box, `isHandNearFace` answers true:
the rectangle test is inclusive on all four sides. -/
theorem c8_boundary_inclusive (hand : List Landmark) (bbox : BBox) (idx : ℕ)
    (hlen : hand.length = 21) (hw : 0 ≤ bbox.width) (hh : 0 ≤ bbox.height)
    (hidx : idx ∈ keyPoints)
    (hedge : onFaceBoxEdge (hand.getD idx ⟨0, 0⟩) bbox) :
    isHandNearFace hand bbox 0 = true := by
  have _ := hlen
  simp only [isHandNearFace, List.any_eq_true]
  refine ⟨idx, hidx, ?_⟩
  simp only [landmarkInBox, expandedBox, Bool.and_eq_true, decide_eq_true_eq]
  simp only [onFaceBoxEdge] at hedge
  obtain ⟨hx, hy1, hy2⟩ | ⟨hy, hx1, hx2⟩ := hedge
  · rcases hx with h | h <;> refine ⟨⟨⟨?_, ?_⟩, ?_⟩, ?_⟩ <;> linarith
  · rcases hy with h | h <;> refine ⟨⟨⟨?_, ?_⟩, ?_⟩, ?_⟩ <;> linarith

/-- C8 witness: a hand whose wrist sits exactly on the left edge of the box
centered at (0.5, 0.5) with side 0.2, at the vertical center of that edge. -/
theorem c8_boundary_inclusive_witness :
    exEdgeHand.length = 21 ∧
    (0 : ℚ) ≤ (BBox.mk (1 / 2) (1 / 2) (1 / 5) (1 / 5)).width ∧
    (0 : ℚ) ≤ (BBox.mk (1 / 2) (1 / 2) (1 / 5) (1 / 5)).height ∧
    0 ∈ keyPoints ∧
    onFaceBoxEdge (exEdgeHand.getD 0 ⟨0, 0⟩) (BBox.mk (1 / 2) (1 / 2) (1 / 5) (1 / 5)) ∧
    isHandNearFace exEdgeHand (BBox.mk (1 / 2) (1 / 2) (1 / 5) (1 / 5)) 0 = true := by
  have hlen : exEdgeHand.length = 21 := by simp [exEdgeHand]
  have hmem : 0 ∈ keyPoints := by simp [keyPoints]
  have hedge :
      onFaceBoxEdge (exEdgeHand.getD 0 ⟨0, 0⟩) (BBox.mk (1 / 2) (1 / 2) (1 / 5) (1 / 5)) := by
    simp only [exEdgeHand, getD_replicate_of_lt _ _ (by norm_num : (0 : ℕ) < 21),
      onFaceBoxEdge]
    norm_num
  exact ⟨hlen, by norm_num, by norm_num, hmem, hedge,
    c8_boundary_inclusive exEdgeHand (BBox.mk (1 / 2) (1 / 2) (1 / 5) (1 / 5)) 0 hlen
      (by norm_num) (by norm_num) hmem hedge⟩

/-- C9: a face-result arrival only overwrites the cached face result and
changes nothing else (in particular it runs no evaluation), while a
hand-result arrival on a running instance performs exactly one evaluation
step — canvas redraw, geometry decision, state-machine update — whose
geometry input is the previously cached face result, however old it is. -/
theorem c9_hand_arrival_drives_evaluation (s : AppState) (fr : FaceResults)
    (hr : HandResults) (t : ℚ) :
    handleFaceResults s fr = { s with lastFaceResults := some fr } ∧
    (s.isRunning = true →
      handleHandResults s hr t =
        updateTouchState
          { s with
            lastHandResults := some hr
            canvas := renderOps s.lastFaceResults (some hr) }
          (computeTouchingNow s.lastFaceResults (some hr) s.proximityThreshold) t) := by
  refine ⟨rfl, fun h => ?_⟩
  simp [handleHandResults, processFrame, touchingDecision, h]

/-- C9 witness: the running fresh instance, receiving first a face result and
then a hand result at clock 0. -/
theorem c9_hand_arrival_drives_evaluation_witness :
    handleFaceResults runningInit exFaceResults =
      { runningInit with lastFaceResults := some exFaceResults } ∧
    runningInit.isRunning = true ∧
    handleHandResults runningInit exHandResults 0 =
      updateTouchState
        { runningInit with
          lastHandResults := some exHandResults
          canvas := renderOps runningInit.lastFaceResults (some exHandResults) }
        (computeTouchingNow runningInit.lastFaceResults (some exHandResults)
          runningInit.proximityThreshold) 0 :=
  ⟨(c9_hand_arrival_drives_evaluation runningInit exFaceResults exHandResults 0).1, rfl,
   (c9_hand_arrival_drives_evaluation runningInit exFaceResults exHandResults 0).2 rfl⟩

/-- C10: while the instance is not running, a hand-result arrival caches the
result and then `processFrame` returns at its first line: the whole state —
touch machine, alarm resources, status, overlay, canvas — is untouched
(`processFrame` itself is the identity). -/
theorem c10_not_running_is_noop (s : AppState) (r : HandResults) (t : ℚ)
    (h : s.isRunning = false) :
    processFrame s t = s ∧
    handleHandResults s r t = { s with lastHandResults := some r } := by
  constructor
  · simp [processFrame, h]
  · simp [handleHandResults, processFrame, h]

/-- C10 witness: a stopped instance (`isRunning = false`) receiving a hand
result at clock 7. -/
theorem c10_not_running_is_noop_witness :
    exStateStopped.isRunning = false ∧
    processFrame exStateStopped 7 = exStateStopped ∧
    handleHandResults exStateStopped exHandResults 7 =
      { exStateStopped with lastHandResults := some exHandResults } :=
  ⟨rfl, (c10_not_running_is_noop exStateStopped exHandResults 7 rfl).1,
   (c10_not_running_is_noop exStateStopped exHandResults 7 rfl).2⟩
